import Mathlib

set_option maxRecDepth 80000
set_option maxHeartbeats 2000000

/-!
Shallow embedding of the three AWS lambdas of this repository:
`Frage_Generierung_Lambda.py` (question generation), `Antwort_Validierung_Lambda.py`
(answer validation) and `PDF_Upload_Lambda.py` (document upload & indexing).

Modelling conventions, used throughout:
* The LLM agents' runtime behaviour (`Agent.run` / `Team.run` in agno) is opaque and
  non-deterministic; every theorem quantifies over it as a function parameter.  A call
  that raises (unreachable model, unparsable structured output, …) is an
  `Except.error`; a successful call is `Except.ok` carrying the `.content` value.
* Python `str.format` is modelled by `pyFormat`: each keyword substitution splits the
  template on its placeholder and re-joins with the value.  The templates of this
  repository mention each placeholder at most once, where this agrees with Python.
* Python `str.lower` is modelled on the ASCII range (`pyLower`); the only use is the
  `startswith("ver")` routing test, which inspects ASCII letters only.
* pydantic `model_dump_json` is modelled by a concrete JSON writer (modulo string
  escaping); `json.loads (model_dump_json x)` is modelled as the typed value `x`.
* Instruction texts are transcribed from the source after `textwrap.dedent`, with
  trailing whitespace normalised.
* Calls the orchestration code makes to its agents are recorded in explicit traces
  (`GenCall`, `AgentCall`) so that "invoked exactly once / never invoked" claims are
  statable.
-/

namespace TL3

/-- Replacement of the first occurrence of `pat` in a character list by `val`
(structural recursion so that the kernel can evaluate it). -/
def replaceFirstAux (pat val : List Char) : List Char → List Char
  | [] => []
  | c :: rest =>
      if pat.isPrefixOf (c :: rest) then val ++ (c :: rest).drop pat.length
      else c :: replaceFirstAux pat val rest

/-- Python `tpl.format(key=val)` for a template mentioning `\x7bkey\x7d` at most
once (true of every template in this repository). -/
def pyFormat1 (tpl key val : String) : String :=
  ⟨replaceFirstAux ("\x7b" ++ key ++ "\x7d").data val.data tpl.data⟩

/-- Python `str.format` with several keyword substitutions (keys each occurring at
most once in the template, values placeholder-free). -/
def pyFormat (tpl : String) (subs : List (String × String)) : String :=
  subs.foldl (fun acc kv => pyFormat1 acc kv.1 kv.2) tpl

/-- Substring occurrence on character lists. -/
def containsAux (pat : List Char) : List Char → Bool
  | [] => pat.isEmpty
  | c :: rest => pat.isPrefixOf (c :: rest) || containsAux pat rest

/-- Python `needle in haystack` (substring test). -/
def strContains (hay needle : String) : Bool :=
  containsAux needle.data hay.data

/-- Python `s.startswith(pre)`. -/
def strStartsWith (s pre : String) : Bool :=
  pre.data.isPrefixOf s.data

/-- Python `str.lower` (ASCII range). -/
def pyLower (s : String) : String :=
  ⟨s.data.map Char.toLower⟩

/-- Python `str.strip` (leading and trailing whitespace removed). -/
def pyStrip (s : String) : String :=
  ⟨((s.data.dropWhile Char.isWhitespace).reverse.dropWhile Char.isWhitespace).reverse⟩

/-- Python truthiness of a string: non-empty. -/
def pyTruthy (s : String) : Bool :=
  !s.data.isEmpty

/-! ## Shared agent configuration model (agno `Agent` / `Team` construction data) -/

/-- Configuration of `agno.tools.calculator.CalculatorTools` as constructed in
`Antwort_Validierung_Lambda.py`. -/
structure CalculatorConfig where
  add : Bool
  subtract : Bool
  multiply : Bool
  divide : Bool
  exponentiate : Bool
  factorial : Bool
  is_prime : Bool
  square_root : Bool
deriving DecidableEq, Repr

/-- The structured-output models the repository attaches to agents. -/
inductive RespModel
  | validationResult
  | questionResponse
deriving DecidableEq, Repr

/-- Tool instances attached to agents. -/
inductive ToolSpec
  | reasoningTools (add_instructions : Bool)
  | calculatorTools (cfg : CalculatorConfig)
  | knowledgeTools (think search analyze add_instructions : Bool)
deriving DecidableEq, Repr

/-- Construction-time data of an agno `Agent` (the fields the claims inspect). -/
structure Agent where
  name : String
  role : String
  instructions : String
  tools : List ToolSpec
  response_model : Option RespModel
  search_knowledge : Bool := false
deriving DecidableEq, Repr

/-! ## Question generation lambda: data model (`Frage_Generierung_Lambda.py`) -/

/-- `class QuestionType(str, Enum)`. -/
inductive QuestionType
  | text
  | multiple_choice
deriving DecidableEq, Repr

/-- `class Question(BaseModel)`.  `multiple_choice_options: Optional[List[str]] = []`
is modelled as a plain list (the `None` case collapses to `[]`). -/
structure Question where
  question_text : String
  question_type : QuestionType
  multiple_choice_options : List String
  correct_answer : String
deriving DecidableEq, Repr

/-- `class QuestionResponse(BaseModel)`. -/
structure QuestionResponse where
  questions : List Question
deriving DecidableEq, Repr

/-- JSON string literal (modulo escaping, which no claim exercises). -/
def jsonStr (s : String) : String := "\"" ++ s ++ "\""

/-- Serialised form of a `QuestionType` value (`str`-Enum serialises to its value). -/
def QuestionType.dumpJson : QuestionType → String
  | .text => jsonStr "text"
  | .multiple_choice => jsonStr "multiple_choice"

/-- pydantic `model_dump_json` of one `Question`. -/
def Question.model_dump_json (q : Question) : String :=
  "\x7b\"question_text\":" ++ jsonStr q.question_text ++
  ",\"question_type\":" ++ q.question_type.dumpJson ++
  ",\"multiple_choice_options\":[" ++
    String.intercalate "," (q.multiple_choice_options.map jsonStr) ++
  "],\"correct_answer\":" ++ jsonStr q.correct_answer ++ "\x7d"

/-- pydantic `model_dump_json` of a `QuestionResponse`. -/
def QuestionResponse.model_dump_json (r : QuestionResponse) : String :=
  "\x7b\"questions\":[" ++
    String.intercalate "," (r.questions.map Question.model_dump_json) ++ "]\x7d"

/-! ## Question generation lambda: agents -/

/-- `RETRIEVER_INSTRUCTIONS` (after `dedent`); the only template of the file with a
placeholder, `\x7bquery\x7d`. -/
def RETRIEVER_INSTRUCTIONS : String :=
  "\nIch greife direkt auf die pgvector-Datenbank zu, um relevante Chunks zum Thema **\x7bquery\x7d** zu finden.\n" ++
  "Nutze dazu `search`, `think`, `analyze`. Gib deine Antwort exakt so zurück:\n\n" ++
  "Zusammenfassung:\n- <Bullet 1>\n- … (max. 10 Bullets)\n"

/-- `knowledge_tools = KnowledgeTools(knowledge=…, think=True, search=True,
analyze=True, add_instructions=True)`. -/
def knowledge_tools : ToolSpec := ToolSpec.knowledgeTools true true true true

/-- `KNOWLEDGE_RETRIEVER = build_agent(…, uses_knowledge=True)`. -/
def KNOWLEDGE_RETRIEVER : Agent :=
  { name := "Knowledge Retriever"
    role := "Retriever"
    instructions := RETRIEVER_INSTRUCTIONS
    tools := [ToolSpec.reasoningTools true, knowledge_tools]
    response_model := none
    search_knowledge := true }

/-- Instructions of `COMPREHENSION_QA_GENERATOR` (after `dedent`).  Note: the text
contains no `format` placeholders at all. -/
def comprehensionGeneratorInstructions : String :=
  "Deine Aufgabe ist es, basierend auf deinem Wissen qualitativ hochwertige Verständnisfragen samt zugehöriger Antworten (→ Frage-Antwort-Paare) zu dem angegebenen Thema bzw. Themenbereich zu erstellen.\n" ++
  "\n" ++
  "Die Fragen sollen:\n" ++
  "    - inhaltlich vielfältig sein und unterschiedliche Aspekte des Themas / Themenbereichs abdecken\n" ++
  "    - idealerweise verschiedene Fragetechniken abdecken (z. B. Multiple-Choice, Lückentext)\n" ++
  "    - die übergebenen Anforderungen bezüglich Schwierigkeisgrad, Anzahl der Fragen, Thema, Fragentyp, Zielgruppe und Keywords berücksichtigen\n" ++
  "\n" ++
  "Verwende ausschließlich dein eigenes Wissen zur Erstellung der Fragen.\n" ++
  "\n" ++
  "Gib nur die generierten Frage-Antwort-Paare zusammen mit dem Fragetyp und gegebenenfalls den Multiple-Choice-Optionen aus – ohne zusätzlichen Text.\n" ++
  "\n" ++
  "Formuliere die Frage-Antwort-Paare auf Deutsch.\n"

/-- Instructions of `CALCULATION_QA_GENERATOR` (after `dedent`); also free of
`format` placeholders. -/
def calculationGeneratorInstructions : String :=
  "Deine Aufgabe ist es, basierend auf deinem Wissen qualitativ hochwertige Rechenfragen samt zugehöriger Lösungen (→ Frage-Antwort-Paare) zu dem angegebenen Thema bzw. Themenbereich zu erstellen.\n" ++
  "\n" ++
  "Die Fragen sollen:\n" ++
  "    - inhaltlich vielfältig sein und unterschiedliche Aspekte des Themas / Themenbereichs abdecken\n" ++
  "    - die übergebenen Anforderungen bezüglich Schwierigkeisgrad, Anzahl der Fragen, Thema, Fragentyp, Zielgruppe und Keywords berücksichtigen\n" ++
  "\n" ++
  "Verwende ausschließlich dein eigenes Wissen zur Erstellung der Fragen.\n" ++
  "\n" ++
  "Gib nur die generierten Frage-Antwort-Paare zusammen mit dem Fragetyp aus – ohne zusätzlichen Text.\n" ++
  "\n" ++
  "Formuliere die Frage-Antwort-Paare auf Deutsch.\n"

/-- Instructions of `QUESTION_REVIEWER` (after `dedent`). -/
def reviewerInstructions : String :=
  "Deine Aufgabe ist es, die Qualität von Fragen innerhalb gegebener Frage-Antwort-Paare zu prüfen und zu bewerten.\n" ++
  "\n" ++
  "Berücksichtige dabei unter anderem die folgenden Qualitätskriterien. Wenn du ein Kriterium nicht eindeutig anwenden kannst, orientiere dich an deinem besten Urteilsvermögen.\n" ++
  "    - Klarheit & Eindeutigkeit: Ist die Frage eindeutig, verständlich und präzise formuliert und lässt keine Mehrdeutigkeit zu?\n" ++
  "    - Präzision & Umfang: Ist die Frage weder zu allgemein noch zu speziell?\n" ++
  "    - Zielorienterung: Ist die Frage klar an einem Lernziel ausgerichtet?\n" ++
  "    - Kognitive Anforderung (Taxonomiestufe): Erfordert die Frage ein angemessenes Niveau an Denken gemäß Bloom (z. B. Verstehen, Anwenden, Analysieren)? Ist die Frage anspruchsvoll und erfordert ein solides Verständnis des Themas?\n" ++
  "    - Aktivierung / Denkförderung: Fördert die Frage aktives Nachdenken, Transfer oder Problemlösen?\n" ++
  "    - Relevanz & Kontext: Passt die Frage zur Domäne oder zum thematischen Kontext? Stimmt die Frage mit deinem Wissen überein?\n" ++
  "    - Antwortbarkeit: Basiert die Frage auf deinem bekannten Wissen bzw. lässt sich die Frage mit deinem bekannten Wissen beantworten?\n" ++
  "    - Schwierigkeitsgrad: Ist die Frage vom Niveau / Schwierigkeitsgrad her für die Zielgruppe angemessen/geeignet?\n" ++
  "    - Tiefe der Frage: Geht die Frage über reine Faktenabfrage hinaus (z. B. „Warum“ / „Wie“)?\n" ++
  "    - Nicht-Redundanz: Vermeidet die Frage Wiederholungen oder Variationen von Inhalten anderer Fragen?\n" ++
  "    - Informationsdichte: Liefert die Antwort substanzielle Informationen oder ist sie trivial/flach?\n" ++
  "    - Kontextualisierung: Ist die Frage eingebettet in ein sinnvolles Szenario oder Problemfeld?\n" ++
  "    - Vernetztes Denken / Zusammenhangserkennung: Zielt die Frage darauf ab, Zusammenhänge zwischen Konzepten / Themen herzustellen / zu erkennen oder Wissen zu vernetzen?\n" ++
  "    - Antortorientierung: Ermöglicht oder provoziert die Frage eine substanzielle und informative Antwort?\n" ++
  "    - Führt die Frage zu einer guten Antwort?\n" ++
  "\n" ++
  "Falls eine Frage die Qualitätskriterien nicht erfüllt, formuliere gezieltes Feedback mit konkreten Verbesserungsvorschlägen.\n" ++
  "Wenn du mit der Qualität der Fragen zufrieden bist und keine Verbesserungsvorschläge hast, gib eindeutig „Review OK“ als Feedback zurück.\n" ++
  "\n" ++
  "Gib in deiner Rückmeldung ausschließlich Feedback zu den Fragen oder \"Review OK\" zurück – ohne zusätzlichen Text.\n" ++
  "\n" ++
  "Greife auf dein eigenes Wissen zur Bewertung zurück.\n" ++
  "\n" ++
  "Formuliere dein Feedback stets auf Deutsch.\n"

/-- `COMPREHENSION_QA_GENERATOR = build_agent(…, response_model=QuestionResponse)`. -/
def COMPREHENSION_QA_GENERATOR : Agent :=
  { name := "Comprehension QA Generator"
    role := "Generator"
    instructions := comprehensionGeneratorInstructions
    tools := [ToolSpec.reasoningTools true]
    response_model := some RespModel.questionResponse }

/-- `CALCULATION_QA_GENERATOR = build_agent(…, response_model=QuestionResponse)`. -/
def CALCULATION_QA_GENERATOR : Agent :=
  { name := "Calculation QA Generator"
    role := "Generator"
    instructions := calculationGeneratorInstructions
    tools := [ToolSpec.reasoningTools true]
    response_model := some RespModel.questionResponse }

/-- `QUESTION_REVIEWER = build_agent(…)` (no response model: free-text feedback). -/
def QUESTION_REVIEWER : Agent :=
  { name := "Question Reviewer"
    role := "Reviewer"
    instructions := reviewerInstructions
    tools := [ToolSpec.reasoningTools true]
    response_model := none }

/-! ## Question generation lambda: workflow -/

/-- One agent invocation made by `QAWorkflow.run`, with the prompt it was given. -/
inductive GenCall
  | retrieverCall (prompt : String)
  | generatorCall (prompt : String)
  | reviewerCall (prompt : String)
deriving DecidableEq, Repr

/-- Test for a generator invocation. -/
def GenCall.isGenerator : GenCall → Bool
  | .generatorCall _ => true
  | _ => false

/-- Test for a retriever invocation. -/
def GenCall.isRetriever : GenCall → Bool
  | .retrieverCall _ => true
  | _ => false

/-- Test for a reviewer invocation. -/
def GenCall.isReviewer : GenCall → Bool
  | .reviewerCall _ => true
  | _ => false

/-- Number of generator invocations in a trace. -/
def countGeneratorCalls : List GenCall → Nat
  | [] => 0
  | c :: rest => (if c.isGenerator then 1 else 0) + countGeneratorCalls rest

/-- Number of retriever invocations in a trace. -/
def countRetrieverCalls : List GenCall → Nat
  | [] => 0
  | c :: rest => (if c.isRetriever then 1 else 0) + countRetrieverCalls rest

/-- Runtime behaviour of the three agents of the generation workflow, as seen
through `.run(prompt).content`.  `Except.error` models a raised exception
(unreachable oracle, unparsable structured output, …). -/
structure GenOracles where
  retrieve : String → Except String String
  generate : String → Except String QuestionResponse
  review : String → Except String String

/-- Oracles that never raise. -/
def totalGenOracles (ret : String → String) (gen : String → QuestionResponse)
    (rev : String → String) : GenOracles :=
  { retrieve := fun p => Except.ok (ret p)
    generate := fun p => Except.ok (gen p)
    review := fun p => Except.ok (rev p) }

/-- Selected state of `class QAWorkflow(Workflow)` (set in `__init__`). -/
structure QAWorkflow where
  generator : Agent
  q_type_label : String
deriving DecidableEq, Repr

/-- `QAWorkflow.MAX_ROUNDS = 1`. -/
def QAWorkflow.MAX_ROUNDS : Nat := 1

/-- `QAWorkflow.__init__`: case-insensitive `startswith("ver")` routing between the
two generator variants. -/
def QAWorkflow.init (question_type : String) : QAWorkflow :=
  let qt_lower := pyLower question_type
  { generator :=
      if strStartsWith qt_lower "ver" then COMPREHENSION_QA_GENERATOR
      else CALCULATION_QA_GENERATOR
    q_type_label :=
      if strStartsWith qt_lower "ver" then "Verständnisfrage" else "Rechenfrage" }

/-- Prompt of one generation round before feedback is appended:
`self.generator.instructions.format(num=…, q_type=…, difficulty=…, audience=…,
context=…)`. -/
def QAWorkflow.genPromptBase (wf : QAWorkflow) (num_qas : Nat)
    (difficulty audience context : String) : String :=
  pyFormat wf.generator.instructions
    [("num", toString num_qas), ("q_type", wf.q_type_label),
     ("difficulty", difficulty), ("audience", audience), ("context", context)]

/-- `gen_prompt += f"\nVorheriges Feedback:\n{feedback}\n" if feedback` — Python
truthiness: `None` and the empty string both skip the append. -/
def QAWorkflow.genPrompt (wf : QAWorkflow) (num_qas : Nat)
    (difficulty audience context : String) (feedback : Option String) : String :=
  let base := wf.genPromptBase num_qas difficulty audience context
  match feedback with
  | none => base
  | some fb =>
      if !pyTruthy fb then base
      else base ++ "\nVorheriges Feedback:\n" ++ fb ++ "\n"

/-- `review_prompt = "Bewerte folgende Frage-Antwort-Paare:\n" + qa_pairs_json +
f"\nSchwierigkeitsgrad: {difficulty}\nZielgruppe: {audience}"`. -/
def reviewPrompt (qa_pairs_json difficulty audience : String) : String :=
  "Bewerte folgende Frage-Antwort-Paare:\n" ++ qa_pairs_json ++
  "\nSchwierigkeitsgrad: " ++ difficulty ++ "\nZielgruppe: " ++ audience

/-- The `for _ in range(self.MAX_ROUNDS)` loop of `QAWorkflow.run`, as a recursion
on the remaining round count.  `last` is the batch generated by the previous
round (`qa_pairs_json` in the source); falling off the loop end with no round ever
run would raise `NameError` in Python (fuel `0`, `last = none`), which the source
configuration `MAX_ROUNDS = 1` never reaches.  `json.loads (model_dump_json x)` is
modelled as `x`. -/
def QAWorkflow.runLoop (wf : QAWorkflow) (o : GenOracles) (num_qas : Nat)
    (difficulty audience context : String) :
    Nat → Option String → Option QuestionResponse →
    List GenCall × Except String QuestionResponse
  | 0, _, none =>
      ([], Except.error "NameError: name qa_pairs_json is not defined")
  | 0, _, some last => ([], Except.ok last)
  | Nat.succ n, feedback, _ =>
      let gen_prompt := wf.genPrompt num_qas difficulty audience context feedback
      match o.generate gen_prompt with
      | Except.error e => ([GenCall.generatorCall gen_prompt], Except.error e)
      | Except.ok qa_pairs_resp =>
          let qa_pairs_json := qa_pairs_resp.model_dump_json
          let review_prompt := reviewPrompt qa_pairs_json difficulty audience
          match o.review review_prompt with
          | Except.error e =>
              ([GenCall.generatorCall gen_prompt, GenCall.reviewerCall review_prompt],
               Except.error e)
          | Except.ok feedback2 =>
              if strContains feedback2 "Review OK" then
                ([GenCall.generatorCall gen_prompt, GenCall.reviewerCall review_prompt],
                 Except.ok qa_pairs_resp)
              else
                let rest := wf.runLoop o num_qas difficulty audience context n
                  (some feedback2) (some qa_pairs_resp)
                ([GenCall.generatorCall gen_prompt, GenCall.reviewerCall review_prompt]
                   ++ rest.1, rest.2)

/-- `QAWorkflow.run`: retrieve once, then the bounded generate–review loop. -/
def QAWorkflow.run (wf : QAWorkflow) (o : GenOracles) (subjects keywords : String)
    (num_qas : Nat) (difficulty audience : String) :
    List GenCall × Except String QuestionResponse :=
  let search_query := pyStrip (subjects ++ " " ++ keywords)
  let retriever_prompt := pyFormat KNOWLEDGE_RETRIEVER.instructions
    [("query", search_query)]
  match o.retrieve retriever_prompt with
  | Except.error e => ([GenCall.retrieverCall retriever_prompt], Except.error e)
  | Except.ok context =>
      let rest := wf.runLoop o num_qas difficulty audience context
        QAWorkflow.MAX_ROUNDS none none
      (GenCall.retrieverCall retriever_prompt :: rest.1, rest.2)

/-- Parsed generation request body (`payload` in `handle_request`).  Counts are
modelled as `Nat` (`int(payload.get("anzahl_fragen", 3))` on a JSON count). -/
structure GenPayload where
  fragetyp : Option String
  thema : Option String
  keywords : Option String
  anzahl_fragen : Option Nat
  schwierigkeitsgrad : Option String
  zielgruppe : Option String
deriving DecidableEq, Repr

/-- `handle_request`: German payload keys to workflow parameters, then run. -/
def handle_request (o : GenOracles) (payload : GenPayload) :
    List GenCall × Except String QuestionResponse :=
  let question_type := payload.fragetyp.getD "Verständnisfragen"
  let subjects := payload.thema.getD ""
  let keywords := payload.keywords.getD ""
  let num_qas := payload.anzahl_fragen.getD 3
  let difficulty := payload.schwierigkeitsgrad.getD "mittel"
  let audience := payload.zielgruppe.getD ""
  let wf := QAWorkflow.init question_type
  wf.run o subjects keywords num_qas difficulty audience

/-- `class ValidationResult(BaseModel)` of `Antwort_Validierung_Lambda.py`:
`is_correct: bool`, `reason: str` (declared ahead of the handler model because
both lambdas' HTTP responses share one body type here). -/
structure ValidationResult where
  is_correct : Bool
  reason : String
deriving DecidableEq, Repr

/-- Bodies of the HTTP responses the lambdas build: `result.json()` of a
`ValidationResult`, `json.dumps({"questions": …})`, the validation lambda's
`json.dumps(f"Fehler: {e}")`, the generation lambda's `json.dumps({"error": …})`,
and the upload lambda's plain message string. -/
inductive HttpBody
  | validationJson (r : ValidationResult)
  | questionsJson (r : QuestionResponse)
  | fehlerText (msg : String)
  | errorJson (msg : String)
  | messageText (msg : String)
deriving DecidableEq, Repr

/-- Status code plus body of a lambda response (CORS headers carried by every
response are omitted: no claim inspects them). -/
structure HttpResponse where
  statusCode : Nat
  body : HttpBody
deriving DecidableEq, Repr

/-- API-Gateway proxy event as the generation lambda reads it:
`event.get("body")` and `event.get("isBase64Encoded")`. -/
structure GenEvent where
  body : Option String
  isBase64Encoded : Bool
deriving DecidableEq, Repr

/-- `lambda_handler` of `Frage_Generierung_Lambda.py`.  `b64decode` models
`base64.b64decode(…).decode()` and `json_loads` models `json.loads` into the
payload keys; both run inside the `try`, so their failures become 500 responses.
`"\x7b\x7d"` is the `"{}"` default applied by `event.get("body") or "{}"` (also
taken for an empty body string: Python truthiness). -/
def gen_lambda_handler (b64decode : String → Except String String)
    (json_loads : String → Except String GenPayload) (o : GenOracles)
    (event : GenEvent) : List GenCall × HttpResponse :=
  let body0 :=
    match event.body with
    | none => "\x7b\x7d"
    | some s => if !pyTruthy s then "\x7b\x7d" else s
  match (if event.isBase64Encoded then b64decode body0 else Except.ok body0) with
  | Except.error e => ([], ⟨500, HttpBody.errorJson e⟩)
  | Except.ok body1 =>
      match json_loads body1 with
      | Except.error e => ([], ⟨500, HttpBody.errorJson e⟩)
      | Except.ok payload =>
          match handle_request o payload with
          | (tr, Except.error e) => (tr, ⟨500, HttpBody.errorJson e⟩)
          | (tr, Except.ok qr) => (tr, ⟨200, HttpBody.questionsJson qr⟩)

/-! ## Answer validation lambda (`Antwort_Validierung_Lambda.py`) -/

/-- `class QuestionTypeEnum(Enum)` — a plain (non-`str`) Enum. -/
inductive QuestionTypeEnum
  | COMPREHENSION_QUESTION
  | CALCULATION_QUESTION
deriving DecidableEq, Repr

/-- `.value` of the enum members. -/
def QuestionTypeEnum.value : QuestionTypeEnum → String
  | .COMPREHENSION_QUESTION => "Verständnisfragen"
  | .CALCULATION_QUESTION => "Rechenfragen"

/-- Dynamically-typed value reaching `validate`'s `question_type` parameter: the
annotation says `QuestionTypeEnum`, but `lambda_handler` passes the raw
`question_style` string from the request body. -/
inductive PyVal
  | str (s : String)
  | enumMember (e : QuestionTypeEnum)
deriving DecidableEq, Repr

/-- Python `==` on these values: a `str` never equals a member of a plain `Enum`
(no `__eq__` across the types), members compare by identity, strings by value. -/
def pyEq : PyVal → PyVal → Bool
  | PyVal.str a, PyVal.str b => a == b
  | PyVal.enumMember a, PyVal.enumMember b => a == b
  | _, _ => false

/-- `calculator_tools = CalculatorTools(add=True, subtract=True, multiply=True,
divide=True, exponentiate=True, factorial=True, is_prime=True, square_root=True)`. -/
def calculator_tools : CalculatorConfig :=
  { add := true, subtract := true, multiply := true, divide := true
    exponentiate := true, factorial := true, is_prime := true, square_root := true }

/-- Instructions of `answer_validator1` (transcribed, indentation normalised). -/
def answerValidator1Instructions : String :=
  "Basierend auf deinem Wissen sollst du Studentenantworten auf Fragen hinsichtlich ihrer inhaltlichen Korrektheit bewerten.\n" ++
  "Vergleiche dabei die Studentenantwort inhaltlich und sinngemäß mit der übergebenen richtigen Antwort. Ignoriere hierbei nicht relevante Details wie beispielsweise Groß- und Kleinschreibung.\n" ++
  "Wenn die Antwort nicht richtig ist, gibt eine entsprechende aussagekräftige Begründung ab.\n" ++
  "Greife auf dein Wissen zurück, bevor du eine Bewertung der Studentenantwort vornimmst.\n"

/-- Instructions of `answer_validator2` (transcribed, indentation normalised). -/
def answerValidator2Instructions : String :=
  "Basierend auf deinem Wissen sollst du Studentenantworten auf Fragen hinsichtlich ihrer inhaltlichen Korrektheit bewerten.\n" ++
  "Vergleiche dabei die Studentenantwort inhaltlich und sinngemäß mit der übergebenen richtigen Antwort.\n" ++
  "Wenn die Antwort nicht richtig ist, gibt eine entsprechende aussagekräftige Begründung ab.\n" ++
  "Greife auf dein Wissen zurück, bevor du eine Bewertung der Studentenantwort vornimmst.\n"

/-- Instructions of `master_answer_validator` (transcribed, indentation
normalised). -/
def masterAnswerValidatorInstructions : String :=
  "Basierend auf deinem Wissen sollst du die Antworten auf Fragen hinsichtlich ihrer inhaltlichen Korrektheit bewerten.\n" ++
  "Vergleiche dabei die Studentenantwort inhaltlich und sinngemäß mit der übergebenen richtigen Antwort. Ignoriere hierbei nicht relevante Details wie beispielsweise Groß- und Kleinschreibung.\n" ++
  "Wenn die Antwort nicht richtig ist, gibt eine entsprechende aussagekräftige Begründung ab.\n" ++
  "Greife auf dein Wissen zurück, bevor du eine Bewertung der Studentenantwort vornimmst.\n"

/-- `answer_validator1 = Agent(…)`: first evaluator, free-text feedback. -/
def answer_validator1 : Agent :=
  { name := "Answer Evaluator 1"
    role := "First Answer Evaluator"
    instructions := answerValidator1Instructions
    tools := [ToolSpec.reasoningTools true]
    response_model := none }

/-- `answer_validator2 = Agent(…)`: second evaluator, free-text feedback. -/
def answer_validator2 : Agent :=
  { name := "Answer Evaluator 2"
    role := "Second Answer Evaluator"
    instructions := answerValidator2Instructions
    tools := [ToolSpec.reasoningTools true]
    response_model := none }

/-- `master_answer_validator = Agent(…, tools=[ReasoningTools(…), calculator_tools],
response_model=ValidationResult)`: the tool-augmented Arbiter. -/
def master_answer_validator : Agent :=
  { name := "Final Answer Evaluator"
    role := "Final Answer Evaluator"
    instructions := masterAnswerValidatorInstructions
    tools := [ToolSpec.reasoningTools true, ToolSpec.calculatorTools calculator_tools]
    response_model := some RespModel.validationResult }

/-- Construction-time data of the agno `Team` (collaborate mode). -/
structure Team where
  name : String
  mode : String
  members : List Agent
  tools : List ToolSpec
  instructions : List String
  success_criteria : String
  response_model : Option RespModel
deriving DecidableEq, Repr

/-- `agent_team = Team(…, members=[answer_validator1, answer_validator2], …)`:
the two-evaluator consensus team. -/
def agent_team : Team :=
  { name := "Evaluation Team"
    mode := "collaborate"
    members := [answer_validator1, answer_validator2]
    tools := [ToolSpec.reasoningTools true]
    instructions :=
      ["Du bist Diskussionsleiter.",
       "Du musst die Diskussion beenden, wenn du der Meinung bist, dass das Team einen Konsens erreicht hat.",
       "Wenn kein Konsens erreicht wurde, antworte mit \x27Consensus not reached\x27.",
       "Entscheide, ob die Frage ausreichend beantwortet wurde und gib den entsprechenden Wahrheitswert zurück."]
    success_criteria := "Das Team hat einen Konses erreicht."
    response_model := some RespModel.validationResult }

/-- `prompt_template` of the validation lambda (kept verbatim, leading indentation
normalised; the three `format` placeholders appear once each). -/
def prompt_template : String :=
  "\nWerte die Antwort des Studenten aus dem gegebenen Frage-Antwort-Paar hinsichtlich ihrer inhaltlichen Korrektheit aus, indem du die Stundentenantwort mit der übergebenen richtigen Antwort inhaltlich und sinngemäß vergleichst.\n" ++
  "\nFrage:\n\x7bquestion\x7d\n" ++
  "\nStudentenantwort:\n\x7bstudent_answer\x7d\n" ++
  "\nRichtige Antwort:\n\x7bcorrect_answer\x7d\n"

/-- One agent invocation made by `validate`. -/
inductive AgentCall
  | teamCall (message : String)
  | arbiterCall (message : String)
deriving DecidableEq, Repr

/-- `validate(message, question_type)`: dispatch between the consensus team and the
single Arbiter.  The branch condition is the Python comparison
`question_type == QuestionTypeEnum.COMPREHENSION_QUESTION`; the
`"Consensus not reached" not in …` check of the team branch only prints and is
omitted.  The pair's first component records which agent was invoked. -/
def validate (teamRun arbiterRun : String → Except String ValidationResult)
    (message : String) (question_type : PyVal) :
    List AgentCall × Except String ValidationResult :=
  if pyEq question_type (PyVal.enumMember QuestionTypeEnum.COMPREHENSION_QUESTION) then
    ([AgentCall.teamCall message], teamRun message)
  else
    ([AgentCall.arbiterCall message], arbiterRun message)

/-- Parsed validation request body (`body.get(…)` results; `correct_answer` has no
default, so a missing key is `None`). -/
structure ValidationBody where
  question_text : Option String
  student_answer : Option String
  correct_answer : Option String
  question_style : Option String
deriving DecidableEq, Repr

/-- Python `str(…)` as `format` applies it to an optional string: `None` prints as
`"None"`. -/
def pyStrOfOpt : Option String → String
  | none => "None"
  | some s => s

/-- API-Gateway proxy event as the validation lambda reads it. -/
structure ValEvent where
  body : Option String
  isBase64Encoded : Bool
deriving DecidableEq, Repr

/-- `lambda_handler` of `Antwort_Validierung_Lambda.py`.  The outer `Except` models
exceptions that escape the handler: `event["body"]` (`KeyError` on a missing key)
and `base64.b64decode` run *before* the `try:` block, so their failures are not
converted to a 500 response.  From `json.loads` on, failures (including agent
failures) are caught and become `statusCode 500` with the
`json.dumps(f"Fehler: {e}")` body. -/
def val_lambda_handler (b64decode : String → Except String String)
    (json_loads : String → Except String ValidationBody)
    (teamRun arbiterRun : String → Except String ValidationResult)
    (event : ValEvent) : Except String (List AgentCall × HttpResponse) :=
  match event.body with
  | none => Except.error "KeyError: \x27body\x27"
  | some raw_body =>
      (if event.isBase64Encoded then b64decode raw_body else Except.ok raw_body).bind
        fun body_decoded =>
          Except.ok <|
            match json_loads body_decoded with
            | Except.error e => ([], ⟨500, HttpBody.fehlerText ("Fehler: " ++ e)⟩)
            | Except.ok body =>
                let question_text := body.question_text.getD ""
                let student_answer := body.student_answer.getD ""
                let question_style := body.question_style.getD ""
                let prompt := pyFormat prompt_template
                  [("question", question_text), ("student_answer", student_answer),
                   ("correct_answer", pyStrOfOpt body.correct_answer)]
                match validate teamRun arbiterRun prompt (PyVal.str question_style) with
                | (calls, Except.error e) =>
                    (calls, ⟨500, HttpBody.fehlerText ("Fehler: " ++ e)⟩)
                | (calls, Except.ok result) =>
                    (calls, ⟨200, HttpBody.validationJson result⟩)

/-! ## PDF upload lambda (`PDF_Upload_Lambda.py`) -/

/-- Object storage, keyed by object name (`Key`), value = stored body. -/
def S3Bucket := String → Option String

/-- `s3.put_object(Bucket=…, Key=filename, Body=file_content, …)`. -/
def s3_put (bucket : S3Bucket) (key content : String) : S3Bucket :=
  fun k => if k = key then some content else bucket k

/-- `save_files_to_s3`: every `(filename, content)` pair is stored under its
filename (the uploads commute — distinct keys — so the parallel `asyncio.gather`
is modelled as a fold). -/
def save_files_to_s3 (bucket : S3Bucket) (files : List (String × String)) : S3Bucket :=
  files.foldl (fun b kv => s3_put b kv.1 kv.2) bucket

/-- Arguments of the `knowledge_base.aload(recreate=…, upsert=True)` call built by
`load_files_from_s3_to_knowledge_base`. -/
structure KnowledgeBaseLoad where
  urls : List String
  recreate : Bool
  upsert : Bool
deriving DecidableEq, Repr

/-- `load_files_from_s3_to_knowledge_base(s3_bucket_base_url, knowledge_db_url,
filenames)`: builds one URL per *passed-in* filename and loads with
`recreate = not knowledge_base.exists()` (the store's prior existence is the
`kb_exists` parameter) and `upsert=True`. -/
def load_files_from_s3_to_knowledge_base (s3_bucket_base_url : String)
    (filenames : List String) (kb_exists : Bool) : KnowledgeBaseLoad :=
  { urls := filenames.map (fun filename => s3_bucket_base_url ++ "/" ++ filename)
    recreate := !kb_exists
    upsert := true }

/-- `main(s3_bucket_base_url, s3_bucket_name, knowledge_db_url, files)`: store all
files, then trigger the knowledge-base load for
`[filename for filename, _ in files]`. -/
def upload_main (s3_bucket_base_url : String) (bucket : S3Bucket) (kb_exists : Bool)
    (files : List (String × String)) : S3Bucket × KnowledgeBaseLoad :=
  (save_files_to_s3 bucket files,
   load_files_from_s3_to_knowledge_base s3_bucket_base_url (files.map Prod.fst)
     kb_exists)

/-- `s3_bucket_base_url` constant of the upload lambda. -/
def s3_bucket_base_url : String :=
  "https://tl-course-materials.s3.eu-central-1.amazonaws.com"

/-- `s3_bucket_name` constant of the upload lambda. -/
def s3_bucket_name : String := "tl-course-materials"

/-! ## Theorems -/

/-- Helper: the two generator agents differ. -/
theorem comp_generator_ne_calc_generator :
    COMPREHENSION_QA_GENERATOR ≠ CALCULATION_QA_GENERATOR := by
  intro h
  exact absurd (congrArg Agent.name h) (by decide)

/-- C10: the generator variant is selected by a case-insensitive prefix test —
`fragetyp` strings whose lowercased form starts with `"ver"` select the
comprehension generator, every other string selects the calculation generator. -/
theorem generator_selected_by_ver_prefix (s : String) :
    ((QAWorkflow.init s).generator = COMPREHENSION_QA_GENERATOR ↔
      strStartsWith (pyLower s) "ver" = true) ∧
    ((QAWorkflow.init s).generator = CALCULATION_QA_GENERATOR ↔
      strStartsWith (pyLower s) "ver" = false) := by
  unfold QAWorkflow.init
  by_cases h : strStartsWith (pyLower s) "ver" = true
  · simp only [h, if_true]
    exact ⟨by simp, by simp [comp_generator_ne_calc_generator]⟩
  · simp only [Bool.not_eq_true] at h
    simp only [h, Bool.false_ne_true, if_false]
    exact ⟨by simp [Ne.symm comp_generator_ne_calc_generator], by simp⟩

/-- C1: contrary to the claim, a request with `question_style` equal to
`"Verständnisfragen"` is dispatched to the single Arbiter
(`master_answer_validator`), not to the consensus team: `lambda_handler` passes
the raw `str` from the body, and a `str` never compares equal to a member of the
plain `Enum` `QuestionTypeEnum`, so the team branch of `validate` is unreachable.
The first conjunct evaluates the dispatch at the failing input; the second shows
every string-typed style takes the Arbiter branch. -/
theorem validate_dispatches_every_string_to_arbiter :
    (validate (fun _ => Except.ok ⟨true, "team"⟩) (fun _ => Except.ok ⟨false, "arbiter"⟩)
        "prompt" (PyVal.str "Verständnisfragen") =
      ([AgentCall.arbiterCall "prompt"], Except.ok ⟨false, "arbiter"⟩)) ∧
    (∀ (teamRun arbiterRun : String → Except String ValidationResult)
        (message style : String),
      (validate teamRun arbiterRun message (PyVal.str style)).1 =
        [AgentCall.arbiterCall message]) :=
  ⟨rfl, fun _ _ _ _ => rfl⟩

/-- C6: the Arbiter (`master_answer_validator`) carries the calculator tool with
exact add/subtract/multiply/divide/exponentiate/factorial/primality/square-root
capabilities and the `ValidationResult` structured-output model, and on the
string-typed (calculation) dispatch path `validate` returns the Arbiter's
structured `\x7bis_correct, reason\x7d` result unchanged. -/
theorem arbiter_calculator_tools_and_structured_result :
    calculator_tools =
      { add := true, subtract := true, multiply := true, divide := true,
        exponentiate := true, factorial := true, is_prime := true,
        square_root := true } ∧
    master_answer_validator.tools =
      [ToolSpec.reasoningTools true, ToolSpec.calculatorTools calculator_tools] ∧
    master_answer_validator.response_model = some RespModel.validationResult ∧
    (∀ (teamRun arbiterRun : String → ValidationResult) (message style : String),
      (validate (fun m => Except.ok (teamRun m)) (fun m => Except.ok (arbiterRun m))
          message (PyVal.str style)).2 = Except.ok (arbiterRun message)) :=
  ⟨rfl, rfl, rfl, fun _ _ _ _ => rfl⟩

/-- C8 counterexample: the validation path enforces no non-emptiness of `reason` —
with the dispatched agent returning `is_correct = false` and an empty `reason`
(pydantic accepts any `str`), the handler returns exactly that result to the
caller with status 200. -/
theorem empty_reason_passes_through_counterexample :
    val_lambda_handler (fun s => Except.ok s)
      (fun _ => Except.ok ⟨some "Frage", some "Antwort", some "Korrekt",
        some "Rechenfragen"⟩)
      (fun _ => Except.ok ⟨false, ""⟩) (fun _ => Except.ok ⟨false, ""⟩)
      ⟨some "rohdaten", false⟩ =
    Except.ok
      ([AgentCall.arbiterCall (pyFormat prompt_template
        [("question", "Frage"), ("student_answer", "Antwort"),
         ("correct_answer", "Korrekt")])],
       ⟨200, HttpBody.validationJson ⟨false, ""⟩⟩) := rfl

/-- C8 amended: `validate` returns the dispatched agent's `ValidationResult`
unchanged, so the result's `reason` is non-empty for incorrect answers exactly
when the agent supplied a non-empty reason; the code itself performs no check. -/
theorem incorrect_result_reason_from_agent
    (teamRun arbiterRun : String → Except String ValidationResult)
    (hteam : ∀ m r, teamRun m = Except.ok r → r.is_correct = false → r.reason ≠ "")
    (harb : ∀ m r, arbiterRun m = Except.ok r → r.is_correct = false → r.reason ≠ "")
    (message : String) (question_type : PyVal) (r : ValidationResult)
    (hres : (validate teamRun arbiterRun message question_type).2 = Except.ok r) :
    r.is_correct = false → r.reason ≠ "" := by
  unfold validate at hres
  by_cases h : pyEq question_type
      (PyVal.enumMember QuestionTypeEnum.COMPREHENSION_QUESTION) = true
  · rw [if_pos h] at hres
    exact hteam message r hres
  · rw [if_neg h] at hres
    exact harb message r hres

/-- C8 amended, witness: concrete agents that justify an incorrect answer. -/
theorem incorrect_result_reason_from_agent_witness :
    ValidationResult.reason ⟨false, "Die Antwort ist unvollständig."⟩ ≠ "" :=
  incorrect_result_reason_from_agent
    (fun _ => Except.ok ⟨false, "Die Antwort ist unvollständig."⟩)
    (fun _ => Except.ok ⟨false, "Die Antwort ist unvollständig."⟩)
    (fun _ r h _ => by injection h with h2; rw [← h2]; decide)
    (fun _ r h _ => by injection h with h2; rw [← h2]; decide)
    "prompt" (PyVal.str "Rechenfragen") ⟨false, "Die Antwort ist unvollständig."⟩
    rfl rfl

/-- Helper: a stored key stays stored under further `s3_put`s. -/
theorem s3_put_isSome_mono (bucket : S3Bucket) (key content fn : String)
    (h : (bucket fn).isSome = true) : ((s3_put bucket key content) fn).isSome = true := by
  unfold s3_put
  by_cases hk : fn = key
  · simp [hk]
  · simpa [hk] using h

/-- Helper: a stored key stays stored across `save_files_to_s3`. -/
theorem save_files_isSome_mono (files : List (String × String)) (bucket : S3Bucket)
    (fn : String) (h : (bucket fn).isSome = true) :
    ((save_files_to_s3 bucket files) fn).isSome = true := by
  induction files generalizing bucket with
  | nil => exact h
  | cons kv rest ih =>
      exact ih (s3_put bucket kv.1 kv.2) (s3_put_isSome_mono bucket kv.1 kv.2 fn h)

/-- Helper: every uploaded filename is stored after `save_files_to_s3`. -/
theorem save_files_stores_all (files : List (String × String)) (bucket : S3Bucket)
    (fn : String) (h : fn ∈ files.map Prod.fst) :
    ((save_files_to_s3 bucket files) fn).isSome = true := by
  induction files generalizing bucket with
  | nil => cases h
  | cons kv rest ih =>
      rw [List.map_cons, List.mem_cons] at h
      cases h with
      | inl heq =>
          refine save_files_isSome_mono rest (s3_put bucket kv.1 kv.2) fn ?_
          simp [s3_put, heq]
      | inr hmem => exact ih (s3_put bucket kv.1 kv.2) hmem

/-- C9 counterexample: after uploading `new.pdf` into a bucket that already holds
`old.pdf`, both objects are stored, but the knowledge-store load receives only the
URL of the newly uploaded file — the full object set is not re-indexed. -/
theorem reindex_only_new_files_counterexample :
    (upload_main s3_bucket_base_url
        (fun k => if k = "old.pdf" then some "ALTER-INHALT" else none) true
        [("new.pdf", "NEUER-INHALT")]).1 "old.pdf" = some "ALTER-INHALT" ∧
    (upload_main s3_bucket_base_url
        (fun k => if k = "old.pdf" then some "ALTER-INHALT" else none) true
        [("new.pdf", "NEUER-INHALT")]).1 "new.pdf" = some "NEUER-INHALT" ∧
    (upload_main s3_bucket_base_url
        (fun k => if k = "old.pdf" then some "ALTER-INHALT" else none) true
        [("new.pdf", "NEUER-INHALT")]).2.urls = [s3_bucket_base_url ++ "/new.pdf"] ∧
    (s3_bucket_base_url ++ "/old.pdf") ∉
      (upload_main s3_bucket_base_url
        (fun k => if k = "old.pdf" then some "ALTER-INHALT" else none) true
        [("new.pdf", "NEUER-INHALT")]).2.urls := by
  refine ⟨by decide, by decide, by decide, ?_⟩
  intro hmem
  simp only [upload_main, load_files_from_s3_to_knowledge_base, List.map_cons,
    List.map_nil, List.mem_singleton] at hmem
  exact absurd hmem (by decide)

/-- C9 amended: every extracted file is stored to object storage under its
filename, and the knowledge-store load is triggered with upsert semantics for the
URLs of exactly the newly uploaded files (not the full object set). -/
theorem upload_stores_files_and_upserts_new_urls (base : String) (bucket : S3Bucket)
    (kb_exists : Bool) (files : List (String × String)) :
    ((files.map Prod.fst).all
      (fun fn => ((upload_main base bucket kb_exists files).1 fn).isSome)) = true ∧
    (upload_main base bucket kb_exists files).2.urls =
      files.map (fun f => base ++ "/" ++ f.1) ∧
    (upload_main base bucket kb_exists files).2.upsert = true := by
  refine ⟨?_, by simp [upload_main, load_files_from_s3_to_knowledge_base], rfl⟩
  rw [List.all_eq_true]
  intro fn hfn
  exact save_files_stores_all files bucket fn hfn

/-- Helper: trace counts distribute over concatenation. -/
theorem countGeneratorCalls_append (l1 l2 : List GenCall) :
    countGeneratorCalls (l1 ++ l2) = countGeneratorCalls l1 + countGeneratorCalls l2 := by
  induction l1 with
  | nil => simp [countGeneratorCalls]
  | cons c rest ih => simp [countGeneratorCalls, ih]; omega

/-- Helper: the retriever prompt built by `QAWorkflow.run`. -/
def retrieverPromptOf (subjects keywords : String) : String :=
  pyFormat KNOWLEDGE_RETRIEVER.instructions
    [("query", pyStrip (subjects ++ " " ++ keywords))]

/-- Helper: one fully-successful round of the loop — whatever the review feedback
is, the loop returns the generated batch after exactly one generator call and one
reviewer call. -/
theorem runLoop_one_total (wf : QAWorkflow) (ret : String → String)
    (gen : String → QuestionResponse) (rev : String → String) (num_qas : Nat)
    (difficulty audience context : String) :
    wf.runLoop (totalGenOracles ret gen rev) num_qas difficulty audience context
      1 none none =
    ([GenCall.generatorCall (wf.genPrompt num_qas difficulty audience context none),
      GenCall.reviewerCall (reviewPrompt
        (gen (wf.genPrompt num_qas difficulty audience context none)).model_dump_json
        difficulty audience)],
     Except.ok (gen (wf.genPrompt num_qas difficulty audience context none))) := by
  by_cases hc : strContains
      (rev (reviewPrompt
        (gen (wf.genPrompt num_qas difficulty audience context none)).model_dump_json
        difficulty audience)) "Review OK" = true
  · simp [QAWorkflow.runLoop, totalGenOracles, hc]
  · simp [QAWorkflow.runLoop, totalGenOracles, hc]

/-- Helper: `QAWorkflow.run` with never-failing oracles — the full trace and the
returned batch. -/
theorem run_total_eq (qt : String) (ret : String → String)
    (gen : String → QuestionResponse) (rev : String → String)
    (subjects keywords : String) (num_qas : Nat) (difficulty audience : String) :
    (QAWorkflow.init qt).run (totalGenOracles ret gen rev) subjects keywords num_qas
      difficulty audience =
    ([GenCall.retrieverCall (retrieverPromptOf subjects keywords),
      GenCall.generatorCall ((QAWorkflow.init qt).genPrompt num_qas difficulty
        audience (ret (retrieverPromptOf subjects keywords)) none),
      GenCall.reviewerCall (reviewPrompt
        (gen ((QAWorkflow.init qt).genPrompt num_qas difficulty audience
          (ret (retrieverPromptOf subjects keywords)) none)).model_dump_json
        difficulty audience)],
     Except.ok (gen ((QAWorkflow.init qt).genPrompt num_qas difficulty audience
       (ret (retrieverPromptOf subjects keywords)) none))) := by
  have h1 : (QAWorkflow.init qt).run (totalGenOracles ret gen rev) subjects keywords
      num_qas difficulty audience =
      (GenCall.retrieverCall (retrieverPromptOf subjects keywords) ::
        ((QAWorkflow.init qt).runLoop (totalGenOracles ret gen rev) num_qas difficulty
          audience (ret (retrieverPromptOf subjects keywords)) 1 none none).1,
       ((QAWorkflow.init qt).runLoop (totalGenOracles ret gen rev) num_qas difficulty
          audience (ret (retrieverPromptOf subjects keywords)) 1 none none).2) := rfl
  rw [h1, runLoop_one_total]

/-- Helper: the generator-call bound of the loop — at most `fuel` rounds. -/
theorem runLoop_generator_count_le (wf : QAWorkflow) (o : GenOracles) (num_qas : Nat)
    (difficulty audience context : String) (fuel : Nat) (fb : Option String)
    (last : Option QuestionResponse) :
    countGeneratorCalls
      (wf.runLoop o num_qas difficulty audience context fuel fb last).1 ≤ fuel := by
  induction fuel generalizing fb last with
  | zero => cases last <;> simp [QAWorkflow.runLoop, countGeneratorCalls]
  | succ n ih =>
      simp only [QAWorkflow.runLoop]
      cases hg : o.generate (wf.genPrompt num_qas difficulty audience context fb) with
      | error e => simp [hg, countGeneratorCalls, GenCall.isGenerator]
      | ok resp =>
          simp only [hg]
          cases hr : o.review (reviewPrompt resp.model_dump_json difficulty audience) with
          | error e => simp [hr, countGeneratorCalls, GenCall.isGenerator]
          | ok fb2 =>
              simp only [hr]
              by_cases hc : strContains fb2 "Review OK" = true
              · simp [hc, countGeneratorCalls, GenCall.isGenerator]
              · simp only [hc, Bool.false_eq_true, if_false, List.cons_append,
                  List.nil_append]
                have h2 := ih (some fb2) (some resp)
                simp [countGeneratorCalls, GenCall.isGenerator]
                omega

/-- C2: with the reference configuration `MAX_ROUNDS = 1`, a run with successful
oracle calls performs exactly `MAX_ROUNDS` generator rounds and returns the
last-generated batch — immediately on an approving review, and equally (not as an
error) when the rounds are exhausted without approval; in general the loop never
exceeds its fuel. -/
theorem generation_loop_bounded_returns_batch (qt : String) (ret : String → String)
    (gen : String → QuestionResponse) (rev : String → String)
    (subjects keywords : String) (num_qas : Nat) (difficulty audience : String) :
    countGeneratorCalls ((QAWorkflow.init qt).run (totalGenOracles ret gen rev)
      subjects keywords num_qas difficulty audience).1 = QAWorkflow.MAX_ROUNDS ∧
    ((QAWorkflow.init qt).run (totalGenOracles ret gen rev) subjects keywords
      num_qas difficulty audience).2 =
      Except.ok (gen ((QAWorkflow.init qt).genPrompt num_qas difficulty audience
        (ret (retrieverPromptOf subjects keywords)) none)) ∧
    (∀ (o : GenOracles) (fuel num : Nat) (dif aud ctx : String) (fb : Option String)
        (last : Option QuestionResponse),
      countGeneratorCalls
        ((QAWorkflow.init qt).runLoop o num dif aud ctx fuel fb last).1 ≤ fuel) := by
  refine ⟨?_, ?_, ?_⟩
  · rw [run_total_eq]
    simp [countGeneratorCalls, GenCall.isGenerator]
    rfl
  · rw [run_total_eq]
  · intro o fuel num dif aud ctx fb last
    exact runLoop_generator_count_le (QAWorkflow.init qt) o num dif aud ctx fuel fb last

/-- C3 amended: the coordinator returns the generator's final batch unmodified —
no truncation and no padding — so the returned batch has `num_qas` questions
exactly when the generator's batches do; the code itself never checks the count. -/
theorem returned_batch_length_eq_generator_count (qt : String) (ret : String → String)
    (gen : String → QuestionResponse) (rev : String → String)
    (subjects keywords : String) (num_qas : Nat) (difficulty audience : String)
    (hgen : ∀ p, (gen p).questions.length = num_qas) (qr : QuestionResponse)
    (hres : ((QAWorkflow.init qt).run (totalGenOracles ret gen rev) subjects keywords
      num_qas difficulty audience).2 = Except.ok qr) :
    qr.questions.length = num_qas := by
  rw [run_total_eq] at hres
  have h2 : Except.ok (gen ((QAWorkflow.init qt).genPrompt num_qas difficulty audience
      (ret (retrieverPromptOf subjects keywords)) none)) =
      (Except.ok qr : Except String QuestionResponse) := hres
  injection h2 with h3
  rw [← h3]
  exact hgen _

/-- C3 amended, witness: a three-question generator yields a three-question batch
for `num_qas = 3`. -/
theorem returned_batch_length_eq_generator_count_witness :
    (QuestionResponse.mk
      [⟨"F1?", QuestionType.text, [], "A1"⟩, ⟨"F2?", QuestionType.text, [], "A2"⟩,
       ⟨"F3?", QuestionType.text, [], "A3"⟩]).questions.length = 3 :=
  returned_batch_length_eq_generator_count "Verständnisfragen" (fun _ => "KONTEXT")
    (fun _ => QuestionResponse.mk
      [⟨"F1?", QuestionType.text, [], "A1"⟩, ⟨"F2?", QuestionType.text, [], "A2"⟩,
       ⟨"F3?", QuestionType.text, [], "A3"⟩])
    (fun _ => "Review OK") "Statistik" "rechnen" 3 "mittel" "bachelor"
    (fun _ => rfl)
    (QuestionResponse.mk
      [⟨"F1?", QuestionType.text, [], "A1"⟩, ⟨"F2?", QuestionType.text, [], "A2"⟩,
       ⟨"F3?", QuestionType.text, [], "A3"⟩])
    rfl

/-- C3 counterexample: the claim as stated fails — a request for three questions
whose generator returns only two (and whose reviewer approves) succeeds with a
two-question batch instead of failing. -/
theorem requested_count_not_enforced_counterexample :
    (handle_request (totalGenOracles (fun _ => "KONTEXT")
        (fun _ => QuestionResponse.mk
          [⟨"F1?", QuestionType.text, [], "A1"⟩, ⟨"F2?", QuestionType.text, [], "A2"⟩])
        (fun _ => "Review OK"))
      ⟨some "Verständnisfragen", some "Statistik", some "rechnen", some 3,
       some "mittel", some "bachelor"⟩).2 =
      Except.ok (QuestionResponse.mk
        [⟨"F1?", QuestionType.text, [], "A1"⟩,
         ⟨"F2?", QuestionType.text, [], "A2"⟩]) ∧
    (QuestionResponse.mk
      [⟨"F1?", QuestionType.text, [], "A1"⟩,
       ⟨"F2?", QuestionType.text, [], "A2"⟩]).questions.length ≠ 3 :=
  ⟨rfl, by decide⟩

/-- Helper: the loop with no fuel left returns the previously generated batch. -/
theorem runLoop_zero_some (wf : QAWorkflow) (o : GenOracles) (num_qas : Nat)
    (difficulty audience context : String) (fb : Option String)
    (last : QuestionResponse) :
    wf.runLoop o num_qas difficulty audience context 0 fb (some last) =
      ([], Except.ok last) := rfl

/-- Helper: one successful round of the loop, arbitrary remaining fuel — the
review feedback either approves (substring `"Review OK"`) and the batch is
returned at once, or it is carried into the recursive call as prior feedback. -/
theorem runLoop_succ_total (wf : QAWorkflow) (ret : String → String)
    (gen : String → QuestionResponse) (rev : String → String) (num_qas : Nat)
    (difficulty audience context : String) (n : Nat) (fb : Option String)
    (last : Option QuestionResponse) :
    wf.runLoop (totalGenOracles ret gen rev) num_qas difficulty audience context
      (Nat.succ n) fb last =
    (if strContains (rev (reviewPrompt
        (gen (wf.genPrompt num_qas difficulty audience context fb)).model_dump_json
        difficulty audience)) "Review OK" then
      ([GenCall.generatorCall (wf.genPrompt num_qas difficulty audience context fb),
        GenCall.reviewerCall (reviewPrompt
          (gen (wf.genPrompt num_qas difficulty audience context fb)).model_dump_json
          difficulty audience)],
       Except.ok (gen (wf.genPrompt num_qas difficulty audience context fb)))
    else
      (GenCall.generatorCall (wf.genPrompt num_qas difficulty audience context fb) ::
        GenCall.reviewerCall (reviewPrompt
          (gen (wf.genPrompt num_qas difficulty audience context fb)).model_dump_json
          difficulty audience) ::
        (wf.runLoop (totalGenOracles ret gen rev) num_qas difficulty audience context n
          (some (rev (reviewPrompt
            (gen (wf.genPrompt num_qas difficulty audience context fb)).model_dump_json
            difficulty audience)))
          (some (gen (wf.genPrompt num_qas difficulty audience context fb)))).1,
       (wf.runLoop (totalGenOracles ret gen rev) num_qas difficulty audience context n
          (some (rev (reviewPrompt
            (gen (wf.genPrompt num_qas difficulty audience context fb)).model_dump_json
            difficulty audience)))
          (some (gen (wf.genPrompt num_qas difficulty audience context fb)))).2)) := by
  by_cases hc : strContains (rev (reviewPrompt
      (gen (wf.genPrompt num_qas difficulty audience context fb)).model_dump_json
      difficulty audience)) "Review OK" = true
  · simp [QAWorkflow.runLoop, totalGenOracles, hc]
  · simp [QAWorkflow.runLoop, totalGenOracles, hc]

/-- C4: the Question Reviewer's free-text response is treated as exactly one of
two outcomes, decided by the substring test `"Review OK" in feedback`: approval
(the current batch is returned at once) or improvement feedback (the response is
appended verbatim to the next round's generator prompt).  The dichotomy is
exhaustive and exclusive over all string responses; a response that is not a
string at all raises inside the handler and surfaces as an error (see the C7
theorems), never as a third outcome. -/
theorem reviewer_feedback_two_outcomes (qt : String)
    (gen : String → QuestionResponse) (fb : String) (num_qas : Nat)
    (difficulty audience context : String) :
    (QAWorkflow.init qt).runLoop
      (totalGenOracles (fun _ => "") gen (fun _ => fb)) num_qas difficulty audience
      context 2 none none =
    (if strContains fb "Review OK" then
      ([GenCall.generatorCall
          ((QAWorkflow.init qt).genPrompt num_qas difficulty audience context none),
        GenCall.reviewerCall (reviewPrompt
          (gen ((QAWorkflow.init qt).genPrompt num_qas difficulty audience context
            none)).model_dump_json difficulty audience)],
       Except.ok (gen ((QAWorkflow.init qt).genPrompt num_qas difficulty audience
         context none)))
    else
      ([GenCall.generatorCall
          ((QAWorkflow.init qt).genPrompt num_qas difficulty audience context none),
        GenCall.reviewerCall (reviewPrompt
          (gen ((QAWorkflow.init qt).genPrompt num_qas difficulty audience context
            none)).model_dump_json difficulty audience),
        GenCall.generatorCall
          ((QAWorkflow.init qt).genPrompt num_qas difficulty audience context (some fb)),
        GenCall.reviewerCall (reviewPrompt
          (gen ((QAWorkflow.init qt).genPrompt num_qas difficulty audience context
            (some fb))).model_dump_json difficulty audience)],
       Except.ok (gen ((QAWorkflow.init qt).genPrompt num_qas difficulty audience
         context (some fb))))) := by
  rw [show (2 : Nat) = Nat.succ 1 from rfl, runLoop_succ_total]
  by_cases hc : strContains fb "Review OK" = true
  · simp [hc]
  · simp only [Bool.not_eq_true] at hc
    simp only [hc, Bool.false_eq_true, if_false]
    rw [show (1 : Nat) = Nat.succ 0 from rfl, runLoop_succ_total]
    simp only [hc, Bool.false_eq_true, if_false]
    rw [runLoop_zero_some]

/-- Helper: the comprehension generator's instruction text has no `format`
placeholders, so the per-round `format` call is the identity — the round prompt
(before feedback) is the static instruction text for every `num`, `difficulty`,
`audience` and, in particular, every retrieved `context`. -/
theorem genPrompt_comprehension_static (num_qas : Nat)
    (difficulty audience context : String) :
    (QAWorkflow.init "Verständnisfragen").genPrompt num_qas difficulty audience
      context none = comprehensionGeneratorInstructions := rfl

/-- Helper: same as `genPrompt_comprehension_static` for the calculation
generator. -/
theorem genPrompt_calculation_static (num_qas : Nat)
    (difficulty audience context : String) :
    (QAWorkflow.init "Rechenfragen").genPrompt num_qas difficulty audience
      context none = calculationGeneratorInstructions := rfl

/-- C5 amended: the Knowledge Retriever is invoked exactly once per request —
before the loop, with the stripped concatenation of topic and keywords spliced
into its query template — but the retrieved context never appears in the
generator prompt: the generator instruction templates contain no placeholders, so
each round's `format` call is the identity and the generator prompt is the static
instruction text (plus any prior feedback), for both generator variants. -/
theorem retrieval_once_and_generator_prompt_static (ret : String → String)
    (gen : String → QuestionResponse) (rev : String → String)
    (subjects keywords : String) (num_qas : Nat) (difficulty audience : String) :
    countRetrieverCalls ((QAWorkflow.init "Verständnisfragen").run
      (totalGenOracles ret gen rev) subjects keywords num_qas difficulty
      audience).1 = 1 ∧
    ((QAWorkflow.init "Verständnisfragen").run (totalGenOracles ret gen rev)
      subjects keywords num_qas difficulty audience).1 =
      [GenCall.retrieverCall (retrieverPromptOf subjects keywords),
       GenCall.generatorCall comprehensionGeneratorInstructions,
       GenCall.reviewerCall (reviewPrompt
         (gen comprehensionGeneratorInstructions).model_dump_json difficulty
         audience)] ∧
    countRetrieverCalls ((QAWorkflow.init "Rechenfragen").run
      (totalGenOracles ret gen rev) subjects keywords num_qas difficulty
      audience).1 = 1 ∧
    ((QAWorkflow.init "Rechenfragen").run (totalGenOracles ret gen rev)
      subjects keywords num_qas difficulty audience).1 =
      [GenCall.retrieverCall (retrieverPromptOf subjects keywords),
       GenCall.generatorCall calculationGeneratorInstructions,
       GenCall.reviewerCall (reviewPrompt
         (gen calculationGeneratorInstructions).model_dump_json difficulty
         audience)] := by
  refine ⟨?_, ?_, ?_, ?_⟩
  · rw [run_total_eq]
    simp [countRetrieverCalls, GenCall.isRetriever]
  · rw [run_total_eq, genPrompt_comprehension_static]
  · rw [run_total_eq]
    simp [countRetrieverCalls, GenCall.isRetriever]
  · rw [run_total_eq, genPrompt_calculation_static]

/-- C5 counterexample: with the retriever returning the context
`"KONTEXT-XYZ-123"`, the prompt of the (sole) generator call is the static
instruction text, which does not contain the retrieved context — the claim that
the context is reused in the generator prompt of every round fails. -/
theorem context_absent_from_generator_prompt_counterexample :
    ((QAWorkflow.init "Verständnisfragen").run (totalGenOracles
        (fun _ => "KONTEXT-XYZ-123") (fun _ => QuestionResponse.mk [])
        (fun _ => "Review OK"))
      "Statistik" "rechnen" 2 "mittel" "bachelor").1.get? 1 =
      some (GenCall.generatorCall comprehensionGeneratorInstructions) ∧
    strContains comprehensionGeneratorInstructions "KONTEXT-XYZ-123" = false := by
  constructor
  · rw [run_total_eq, genPrompt_comprehension_static]
    rfl
  · decide

/-- C7 amended: every failure raised inside the handlers' `try` blocks — body
parsing, retrieval, generation, review, or the Arbiter call — unwinds to the
request boundary and becomes a `statusCode 500` response with an error body; no
verdict and no batch accompanies it, and the failing call is never retried (the
trace ends at the failing call).  The validation handler's pre-`try` body
extraction is the exception, settled by the separate counterexample. -/
theorem uniform_error_envelope_inside_try (e ft th kw dif aud : String) (n : Nat)
    (q sa ca style : String) (b64 : String → Except String String)
    (ret : String → String) (gen : String → QuestionResponse)
    (rev : String → String)
    (teamRun arbiterRun : String → Except String ValidationResult) :
    gen_lambda_handler (fun s => Except.ok s) (fun _ => Except.error e)
      (totalGenOracles ret gen rev) ⟨some "rohdaten", false⟩ =
      ([], ⟨500, HttpBody.errorJson e⟩) ∧
    gen_lambda_handler b64
      (fun _ => Except.ok ⟨some ft, some th, some kw, some n, some dif, some aud⟩)
      { retrieve := fun _ => Except.error e, generate := fun p => Except.ok (gen p),
        review := fun p => Except.ok (rev p) } ⟨some "rohdaten", false⟩ =
      ([GenCall.retrieverCall (retrieverPromptOf th kw)],
       ⟨500, HttpBody.errorJson e⟩) ∧
    gen_lambda_handler b64
      (fun _ => Except.ok ⟨some ft, some th, some kw, some n, some dif, some aud⟩)
      { retrieve := fun p => Except.ok (ret p), generate := fun _ => Except.error e,
        review := fun p => Except.ok (rev p) } ⟨some "rohdaten", false⟩ =
      ([GenCall.retrieverCall (retrieverPromptOf th kw),
        GenCall.generatorCall ((QAWorkflow.init ft).genPrompt n dif aud
          (ret (retrieverPromptOf th kw)) none)],
       ⟨500, HttpBody.errorJson e⟩) ∧
    gen_lambda_handler b64
      (fun _ => Except.ok ⟨some ft, some th, some kw, some n, some dif, some aud⟩)
      { retrieve := fun p => Except.ok (ret p), generate := fun p => Except.ok (gen p),
        review := fun _ => Except.error e } ⟨some "rohdaten", false⟩ =
      ([GenCall.retrieverCall (retrieverPromptOf th kw),
        GenCall.generatorCall ((QAWorkflow.init ft).genPrompt n dif aud
          (ret (retrieverPromptOf th kw)) none),
        GenCall.reviewerCall (reviewPrompt
          (gen ((QAWorkflow.init ft).genPrompt n dif aud
            (ret (retrieverPromptOf th kw)) none)).model_dump_json dif aud)],
       ⟨500, HttpBody.errorJson e⟩) ∧
    val_lambda_handler (fun s => Except.ok s) (fun _ => Except.error e)
      teamRun arbiterRun ⟨some "rohdaten", false⟩ =
      Except.ok ([], ⟨500, HttpBody.fehlerText ("Fehler: " ++ e)⟩) ∧
    val_lambda_handler b64
      (fun _ => Except.ok ⟨some q, some sa, some ca, some style⟩)
      teamRun (fun _ => Except.error e) ⟨some "rohdaten", false⟩ =
      Except.ok
        ([AgentCall.arbiterCall (pyFormat prompt_template
          [("question", q), ("student_answer", sa), ("correct_answer", ca)])],
         ⟨500, HttpBody.fehlerText ("Fehler: " ++ e)⟩) :=
  ⟨rfl, rfl, rfl, rfl, rfl, rfl⟩

/-- C7 counterexample: the claim as stated fails for the validation entrypoint —
`event["body"]` and `base64.b64decode` run before the `try:` block, so a request
flagged base64 whose body does not decode raises out of the handler instead of
producing a 500 response. -/
theorem pre_try_error_escapes_counterexample :
    val_lambda_handler
      (fun _ => Except.error "binascii.Error: Invalid base64-encoded string")
      (fun _ => Except.ok ⟨none, none, none, none⟩)
      (fun _ => Except.ok ⟨true, "ok"⟩) (fun _ => Except.ok ⟨true, "ok"⟩)
      ⟨some "!!!", true⟩ =
    Except.error "binascii.Error: Invalid base64-encoded string" := rfl

end TL3
